import Mathlib

set_option maxRecDepth 16000

/-!
Shallow embedding of the `scene_io` module of the kite repository.

The module ingests SAR displacement products of four formats (Gamma,
Matlab, ISCE, GMTSAR) into a canonical container.  The embedding models:

* IEEE single floats by the inductive `F`: an exact rational value, the
  distinguished negative zero, and the NaN used as the "not-available"
  sentinel.  `F.ieeeEq` is the IEEE elementwise comparison used by the
  numpy expressions `displ == -0.` and `displacement == 0.`
  (under which `-0.0 == 0.0` is true and NaN compares unequal to all).
* the filesystem by `FS`: a list of file entries; each entry carries the
  facets a reader may extract from the file (its parsed parameter list for
  `*par` files, its content as a flat list of floats for binary grids, its
  coordinate metadata for ISCE XML files).  `glob` is modelled by a
  fuelled glob matcher over the basename, `os.path.dirname`/`basename`
  by splitting on slashes, `os.path.realpath`/`abspath` by the identity.
* Python exceptions by `Except PyErr`; the `try/except ImportError`
  blocks of the readers become matches that catch only `PyErr.importError`.
* numpy value shapes, for the Gamma angle grids whose element values are
  never inspected by the code, by `NpShape`: a Python float scalar (which
  has no `reshape` attribute), a numpy scalar (whose `reshape` succeeds
  only for a one-element target), and a one-dimensional array of known
  length.
* logging by a returned `List String` of messages where a claim concerns
  diagnostics; `logging` calls irrelevant to the claims are dropped.
-/

/-- Model of an IEEE float value: a finite rational (`num 0` is `+0.0`),
negative zero, or NaN (the not-available sentinel). -/
inductive F where
  | num (q : ℚ)
  | negZero
  | nan
deriving DecidableEq

/-- IEEE `==` on model floats: NaN is unequal to everything and
`-0.0 == 0.0` holds, as in numpy elementwise comparison. -/
def F.ieeeEq : F → F → Bool
  | .nan, _ => false
  | _, .nan => false
  | .num a, .num b => a == b
  | .num a, .negZero => a == 0
  | .negZero, .num b => b == 0
  | .negZero, .negZero => true

/-- Multiplication by the scalar `1e-2` (`displ*1e-2`): centimetres to
metres. NaN propagates; the sign of zero is kept. -/
def F.cmToM : F → F
  | .nan => .nan
  | .negZero => .negZero
  | .num q => .num (q / 100)

/-- Addition of a degree constant (`los_data[:, nlon:] + 90.`). -/
def F.addDeg (d : ℚ) : F → F
  | .nan => .nan
  | .negZero => .num d
  | .num q => .num (q + d)

/-- A two-dimensional float grid (list of rows). -/
abbrev Grid := List (List F)

/-- Cut a flat list into `n` rows of width `w` (numpy `reshape(n, w)`
applied to a flat array whose length is `n * w`). -/
def chunkRows : ℕ → ℕ → List F → List (List F)
  | 0, _, _ => []
  | n + 1, w, xs => xs.take w :: chunkRows n w (xs.drop w)

/-- numpy `reshape(rows, cols)`: defined only when the element count
matches, otherwise the operation raises (modelled as `none`). -/
def reshape2 (rows cols : ℕ) (xs : List F) : Option Grid :=
  if xs.length = rows * cols then some (chunkRows rows cols xs) else none

/-! ### Path and glob model (`os.path`, `glob.glob`) -/

/-- Split a character list on `/`. -/
def splitOnSlash : List Char → List (List Char)
  | [] => [[]]
  | c :: cs =>
    let r := splitOnSlash cs
    if c == '/' then [] :: r
    else
      match r with
      | [] => [[c]]
      | h :: t => (c :: h) :: t

/-- Join path components with `/`. -/
def joinSlash : List (List Char) → List Char
  | [] => []
  | [p] => p
  | p :: ps => p ++ '/' :: joinSlash ps

/-- `os.path.dirname`. -/
def dirname (p : String) : String :=
  String.mk (joinSlash (splitOnSlash p.data).dropLast)

/-- `os.path.basename`. -/
def basename (p : String) : String :=
  String.mk ((splitOnSlash p.data).getLastD [])

/-- Python string slice `s[-4:]`. -/
def pyLast4 (s : String) : String :=
  String.mk (s.data.drop (s.data.length - 4))

/-- Fuelled glob matcher: `*` matches any character run.  The fuel
`pat.length + s.length` suffices because every unfolding consumes at
least one character of the pattern or the subject. -/
def globMatchAux : ℕ → List Char → List Char → Bool
  | 0, _, _ => false
  | _ + 1, [], [] => true
  | _ + 1, [], _ :: _ => false
  | fuel + 1, '*' :: ps, s =>
    globMatchAux fuel ps s ||
      (match s with
       | [] => false
       | _ :: s2 => globMatchAux fuel ('*' :: ps) s2)
  | _ + 1, _ :: _, [] => false
  | fuel + 1, p :: ps, c :: s => p == c && globMatchAux fuel ps s

/-- Glob pattern match on strings. -/
def globMatch (pat s : String) : Bool :=
  globMatchAux (pat.data.length + s.data.length + 1) pat.data s.data

/-- Substring prefix test on character lists. -/
def charsLead : List Char → List Char → Bool
  | [], _ => true
  | _ :: _, [] => false
  | a :: as, b :: bs => a == b && charsLead as bs

/-- Substring occurrence test on character lists. -/
def charsOccur (needle : List Char) : List Char → Bool
  | [] => charsLead needle []
  | c :: rest => charsLead needle (c :: rest) || charsOccur needle rest

/-- `needle in hay` on strings (used to state what an error message
"names"). -/
def strContains (hay needle : String) : Bool :=
  charsOccur needle.data hay.data

/-! ### Filesystem model -/

/-- A typed parameter value from a Gamma `*par` file: a float if
`float()` succeeded, else the trimmed string. -/
inductive PVal where
  | num (q : ℚ)
  | str (s : String)
deriving DecidableEq

/-- Coordinate metadata of an ISCE `*.unw.geo.xml` file: the
`coordinate1`/`coordinate2` components with their `startingvalue`,
`delta` and `size` properties (the XML walk itself is abstracted: the
entry carries the extracted values). -/
structure IsceMeta where
  lonStart : ℚ
  lonDelta : ℚ
  latStart : ℚ
  latDelta : ℚ
  lonSize : ℕ
  latSize : ℕ
deriving DecidableEq

/-- A file on disk, with the facets the readers may extract from it:
`params` is what `Gamma._parseParameterFile`'s line loop yields on its
text, `data` its content as a flat list of floats, `meta` its ISCE
coordinate metadata when it is an XML file. -/
structure FileEntry where
  path : String
  params : List (String × PVal)
  data : List F
  meta : IsceMeta
deriving DecidableEq

/-- The filesystem: the list of existing (readable, regular) files. -/
structure FS where
  files : List FileEntry
deriving DecidableEq

/-- `os.path.isfile`. -/
def isfile (fs : FS) (p : String) : Bool :=
  fs.files.any (fun e => e.path == p)

/-- `os.path.isdir`: a directory is a path that is the parent of some
file. -/
def isdir (fs : FS) (p : String) : Bool :=
  fs.files.any (fun e => dirname e.path == p)

/-- Open a file by exact path. -/
def lookupFile (fs : FS) (p : String) : Option FileEntry :=
  fs.files.find? (fun e => e.path == p)

/-- `glob.glob(dir + "/" + pattern)`: the files of `dir` whose basename
matches the pattern. -/
def globE (fs : FS) (dir : String) (pattern : String) : List FileEntry :=
  fs.files.filter (fun e => dirname e.path == dir && globMatch pattern (basename e.path))

/-! ### Python exceptions and the canonical container -/

/-- The Python exceptions the embedded code can raise. -/
inductive PyErr where
  | importError (msg : String)
  | valueError (msg : String)
  | attributeError (msg : String)
  | typeError (msg : String)
  | indexError (msg : String)
  | ioError (msg : String)
  | zeroDivisionError (msg : String)
deriving DecidableEq

/-- A value stored in an angle slot of the container: a value-level grid
(ISCE) or a reshaped grid tracked by its dimensions only (Gamma, whose
angle values are never inspected by the embedded claims). -/
inductive PyObj where
  | grid (g : Grid)
  | shape2 (rows cols : ℕ)
deriving DecidableEq

/-- The canonical `SceneIO.container` dictionary. -/
structure Container where
  phi : Option PyObj
  theta : Option PyObj
  displacement : Option Grid
  llLon : Option ℚ
  llLat : Option ℚ
  dLat : Option ℚ
  dLon : Option ℚ
deriving DecidableEq

/-- The container as initialised by `SceneIO.__init__` (all slots
`None`). -/
def emptyContainer : Container :=
  { phi := none, theta := none, displacement := none,
    llLon := none, llLat := none, dLat := none, dLon := none }

/-! ### Gamma reader -/

/-- The required parameter keys of `Gamma._parseParameterFile`, in
source order. -/
def requiredParams : List String :=
  ["corner_lat", "corner_lon", "nlines", "width", "post_lat", "post_lon"]

/-- `params[k]` lookup. -/
def lookupParam (ps : List (String × PVal)) (k : String) : Option PVal :=
  (ps.find? (fun p => p.1 == k)).map (fun p => p.2)

/-- The first required key missing from the parameter set, in the order
of the source's `for r in required` loop. -/
def firstMissing (ps : List (String × PVal)) : Option String :=
  requiredParams.find? (fun r => (lookupParam ps r).isNone)

/-- The message of the `ImportError` raised for a missing required
parameter (`'Parameter file does not hold required parameter %s' % r`). -/
def reqMissingMsg (r : String) : String :=
  "Parameter file does not hold required parameter " ++ r

/-- The required-keys check at the end of `Gamma._parseParameterFile`:
the loop raises at the FIRST missing key. -/
def checkRequired (ps : List (String × PVal)) : Except PyErr Unit :=
  match firstMissing ps with
  | some r => .error (.importError (reqMissingMsg r))
  | none => .ok ()

/-- `Gamma._getParameterFile`'s loop over the globbed `*par` files:
parse each, return the first whose parse does not raise `ImportError`,
else raise. -/
def Gamma.findPar : List FileEntry → Except PyErr FileEntry
  | [] => .error (.importError "Could not find suiting Gamma parameter file (*par)")
  | e :: rest =>
    match checkRequired e.params with
    | .ok _ => .ok e
    | .error _ => Gamma.findPar rest

/-- `Gamma._getParameterFile`. -/
def Gamma.getParameterFile (fs : FS) (dir : String) : Except PyErr FileEntry :=
  Gamma.findPar (globE fs dir "*par")

/-- `Gamma.validate`: parse a parameter file, `True` on success,
`False` on `ImportError`; any other exception would escape. -/
def Gamma.validate (fs : FS) (filename : String) (c : Container) :
    (Except PyErr Bool) × Container :=
  match
    (match Gamma.getParameterFile fs (dirname filename) with
     | .error e => .error e
     | .ok pf =>
       match checkRequired pf.params with
       | .error e => .error e
       | .ok _ => .ok true : Except PyErr Bool)
  with
  | .ok b => (.ok b, c)
  | .error (.importError _) => (.ok false, c)
  | .error e => (.error e, c)

/-! numpy value shapes for the Gamma angle pipeline -/

/-- Shape of a Python/numpy value flowing through `Gamma.read`'s angle
handling: the Python float `0.` returned by `_getAngle` as default, a
numpy scalar (result of a ufunc on a Python scalar), or a flat array. -/
inductive NpShape where
  | pyScalar
  | npScalar
  | arr (n : ℕ)
deriving DecidableEq

/-- `num.cos`: a ufunc, turns a Python scalar into a numpy scalar and
preserves array length. -/
def npCos : NpShape → NpShape
  | .pyScalar => .npScalar
  | .npScalar => .npScalar
  | .arr n => .arr n

/-- `num.append(x, fill)` with a fill array of length `k`. -/
def npAppend (x : NpShape) (k : ℕ) : NpShape :=
  match x with
  | .pyScalar => .arr (1 + k)
  | .npScalar => .arr (1 + k)
  | .arr n => .arr (n + k)

/-- `x.reshape(rows, cols)`: a Python float has no `reshape` attribute
(AttributeError); a numpy scalar reshapes only to a one-element target;
an array reshapes only when the element count matches. -/
def npReshape (x : NpShape) (rows cols : ℕ) : Except PyErr (ℕ × ℕ) :=
  match x with
  | .pyScalar => .error (.attributeError "float object has no attribute reshape")
  | .npScalar =>
    if rows * cols = 1 then .ok (rows, cols)
    else .error (.valueError "cannot reshape array of size 1")
  | .arr n =>
    if n = rows * cols then .ok (rows, cols)
    else .error (.valueError "cannot reshape array")

/-- `Gamma._getAngle`: glob `dirname(filename)/pattern`; zero or
multiple matches warn and yield the Python float `0.`; a unique match
is memory-mapped as a flat big-endian float array. -/
def Gamma.getAngle (fs : FS) (filename : String) (pattern : String) :
    NpShape × List String :=
  match globE fs (dirname filename) pattern with
  | [] => (.pyScalar, ["Could not find " ++ pattern ++ " file, defaulting to 0."])
  | [f] => (.arr f.data.length, [])
  | _ => (.pyScalar, ["Found multiple " ++ pattern ++ " files, defaulting to 0."])

/-! the Gamma displacement pipeline (lines 233-241 of the source) -/

/-- Length of the NaN fill appended when the last line is not scanned
completely: `nrows - displ.size % nrows` when the size is not a
multiple of the row width, else no fill. -/
def gammaFill (nrows len : ℕ) : Option ℕ :=
  if len % nrows ≠ 0 then some (nrows - len % nrows) else none

/-- `num.append(displ, fill)`: the flat data padded to a whole row. -/
def gammaPadded (nrows : ℕ) (data : List F) : List F :=
  match gammaFill nrows data.length with
  | some k => data ++ List.replicate k F.nan
  | none => data

/-- The sentinel recoding `displ[displ == -0.] = num.nan`, elementwise:
an element is replaced by NaN exactly when it IEEE-compares equal to
`-0.` (which, under IEEE equality, includes ordinary `+0.0`). -/
def gammaRecode (x : F) : F :=
  if F.ieeeEq x F.negZero then F.nan else x

/-- Lines 233-241 of `Gamma.read`: read the flat floats, pad to a whole
row, reshape to `(nlines, nrows)`, recode the `-0.` sentinel. -/
def gammaDecodeDispl (nlines nrows : ℕ) (data : List F) : Option Grid :=
  match reshape2 nlines nrows (gammaPadded nrows data) with
  | some g => some (g.map (List.map gammaRecode))
  | none => none

/-- Cell access `g[i][j]` on a grid. -/
def cellOf (g : Grid) (i j : ℕ) : Option F :=
  (g[i]?).bind (fun r => r[j]?)

/-- Python `int()` truncation of a float. -/
def pyTrunc (q : ℚ) : ℤ :=
  if 0 ≤ q then q.floor else -((-q).floor)

/-- `float(par[k])` when the parameter parsed as a float, else `None`
(a string value would raise in the numeric context). -/
def qParam (ps : List (String × PVal)) (k : String) : Option ℚ :=
  match lookupParam ps k with
  | some (.num q) => some q
  | _ => none

/-- `int(par[k])` when the parameter is numeric. -/
def zParam (ps : List (String × PVal)) (k : String) : Option ℤ :=
  (qParam ps k).map pyTrunc

/-- `Gamma.read`: locate and parse the parameter file, extract the
integer `width`/`nlines`, decode the displacement grid with padding and
sentinel recoding, process the optional angle grids, then populate the
container.  Returns the result, the container as left by the call
(the source mutates `self.container` only in the final block, lines
254-261), and the emitted warnings.  Degenerate (non-positive)
dimensions are modelled as an immediate numpy error. -/
def Gamma.read (fs : FS) (filename : String) (c0 : Container) :
    (Except PyErr Container) × Container × List String :=
  match Gamma.getParameterFile fs (dirname filename) with
  | .error e => (.error e, c0, [])
  | .ok pf =>
    match checkRequired pf.params with
    | .error e => (.error e, c0, [])
    | .ok _ =>
      match zParam pf.params "width", zParam pf.params "nlines" with
      | some wz, some lz =>
        if wz ≤ 0 ∨ lz ≤ 0 then (.error (.valueError "negative dimensions are not allowed"), c0, [])
        else
          let nrows := wz.toNat
          let nlines := lz.toNat
          match lookupFile fs filename with
          | none => (.error (.ioError filename), c0, [])
          | some fe =>
            let fill := gammaFill nrows fe.data.length
            match gammaDecodeDispl nlines nrows fe.data with
            | none => (.error (.valueError "cannot reshape array"), c0, [])
            | some displ =>
              let phiRes := Gamma.getAngle fs filename "*phi*"
              let thetaRes := Gamma.getAngle fs filename "*theta*"
              let logs := phiRes.2 ++ thetaRes.2
              let thetaC := npCos thetaRes.1
              let thetaF := match fill with | some k => npAppend thetaC k | none => thetaC
              let phiF := match fill with | some k => npAppend phiRes.1 k | none => phiRes.1
              match npReshape thetaF nlines nrows with
              | .error e => (.error e, c0, logs)
              | .ok _ =>
                match npReshape phiF nlines nrows with
                | .error e => (.error e, c0, logs)
                | .ok _ =>
                  match qParam pf.params "corner_lat", qParam pf.params "post_lat",
                        qParam pf.params "corner_lon", qParam pf.params "post_lon" with
                  | some clat, some plat, some clon, some plon =>
                    let c1 : Container :=
                      { phi := some (.shape2 nlines nrows),
                        theta := some (.shape2 nlines nrows),
                        displacement := some (displ.map (List.map F.cmToM)),
                        llLon := some clon,
                        llLat := some (clat + plat * (nrows : ℚ)),
                        dLat := some plat,
                        dLon := some plon }
                    (.ok c1, c1, logs)
                  | _, _, _, _ => (.error (.typeError "unsupported operand type"), c0, logs)
      | _, _ =>
        (.error (.importError ("Error parsing width and nlines from " ++ pf.path)), c0, [])

/-! ### Matlab reader -/

/-- numpy `.min()` over a nonempty array given as head and tail. -/
def npMinQ (a : ℚ) (l : List ℚ) : ℚ := l.foldl min a

/-- numpy `.max()` over a nonempty array given as head and tail. -/
def npMaxQ (a : ℚ) (l : List ℚ) : ℚ := l.foldl max a

/-- The warning logged by `Matlab.read`'s degraded mode. -/
def matlabWarnMsg : String :=
  "Could not interpret spatial vectors, referencing to 0, 0 (lat, lon)"

/-- The `except utm.error.OutOfRangeError` branch of `Matlab.read`:
reference the scene to `(0, 0)` and derive the pixel deltas from the
spacing of the (possibly rescaled) raw coordinate vectors divided by
`110e3`; indexing raises when the vectors have fewer than two
elements. -/
def matlabExceptBranch (e0 : ℚ) (es : List ℚ) (n0 : ℚ) (ns : List ℚ)
    (c : Container) : Except PyErr (Container × List String) :=
  let c1 := { c with llLat := some 0, llLon := some 0 }
  match es, ns with
  | e1 :: _, n1 :: _ =>
    let c2 := { c1 with dLat := some ((e1 - e0) / 110000),
                        dLon := some ((n1 - n0) / 110000) }
    .ok (c2, [matlabWarnMsg])
  | _, _ => .error (.indexError "index 1 is out of bounds")

/-- `Matlab.read`, coordinate part (lines 104-128), for a `.mat`
container holding an `ig_` displacement and `xx`/`yy` coordinate
vectors (the variable-name substring matching loop is modelled by
passing those three extracted values).  `toLL` abstracts
`utm.to_latlon` with the fixed zone `32 N`; `none` models its
`OutOfRangeError`. -/
def Matlab.read (toLL : ℚ → ℚ → Option (ℚ × ℚ)) (xx yy : List ℚ) (ig : Grid)
    (c0 : Container) : Except PyErr (Container × List String) :=
  match xx, yy with
  | [], _ => .error (.valueError "zero-size array reduction")
  | _ :: _, [] => .error (.valueError "zero-size array reduction")
  | x0 :: xs, y0 :: ys =>
    let c := { c0 with displacement := some ig }
    let s : ℚ := if npMinQ x0 xs < 10000 ∨ npMinQ y0 ys < 10000 then 1000 else 1
    let e0 := x0 * s
    let es := xs.map (fun q => q * s)
    let n0 := y0 * s
    let ns := ys.map (fun q => q * s)
    match toLL (npMinQ e0 es) (npMinQ n0 ns) with
    | none => matlabExceptBranch e0 es n0 ns c
    | some ll =>
      let c1 := { c with llLat := some ll.1, llLon := some ll.2 }
      match toLL (npMaxQ e0 es) (npMaxQ n0 ns) with
      | none => matlabExceptBranch e0 es n0 ns c1
      | some ur =>
        let sh0 := ig.length
        let sh1 := (ig.headD []).length
        if sh0 = 0 ∨ sh1 = 0 then .error (.zeroDivisionError "float division by zero")
        else
          let c2 := { c1 with dLat := some ((ur.1 - ll.1) / (sh0 : ℚ)),
                              dLon := some ((ur.2 - ll.2) / (sh1 : ℚ)) }
          .ok (c2, [])

/-- `Matlab.validate`: a bare extension check on the filename. -/
def Matlab.validate (filename : String) (c : Container) :
    (Except PyErr Bool) × Container :=
  (.ok (pyLast4 filename == ".mat"), c)

/-! ### ISCE reader -/

/-- The candidate displacement file of `ISCE._getDisplacementFile`:
the path itself when it is a file, else the first `*.unw.geo` glob
match in it. -/
def ISCE.getDispCandidate (fs : FS) (path : String) : Except PyErr String :=
  if isfile fs path then .ok path
  else
    match globE fs path "*.unw.geo" with
    | [] => .error (.importError "Could not find displacement file (.unw.geo)")
    | e :: _ => .ok e.path

/-- `ISCE._getDisplacementFile`: the candidate must have a sibling
`.xml` metadata file. -/
def ISCE.getDisplacementFile (fs : FS) (path : String) : Except PyErr String :=
  match ISCE.getDispCandidate fs path with
  | .error e => .error e
  | .ok df =>
    if isfile fs (df ++ ".xml") then .ok df
    else .error (.importError "Could not find displacement XML file (.unw.geo.xml)")

/-- `ISCE._getLOSFile`: glob `*.rdr.geo` in the directory (the path
itself when it is a directory, else its parent). -/
def ISCE.getLOSFile (fs : FS) (path : String) : Except PyErr String :=
  match globE fs (if isdir fs path then path else dirname path) "*.rdr.geo" with
  | [] => .error (.importError "Could not find LOS file (.rdr.geo)")
  | e :: _ => .ok e.path

/-- The coordinate metadata read by `ISCEXMLParser` from the
displacement file's sibling XML. -/
def isceXmlMeta (fs : FS) (df : String) : Option IsceMeta :=
  (lookupFile fs (df ++ ".xml")).map (fun e => e.meta)

/-- The zero recoding `displacement[displacement == 0.] = num.nan`,
elementwise. -/
def isceRecode (x : F) : F :=
  if F.ieeeEq x (F.num 0) then F.nan else x

/-- The full per-element ISCE displacement transform: zero recoding
followed by the `*1e-2` centimetre-to-metre scaling. -/
def isceDisplTransform (x : F) : F :=
  F.cmToM (isceRecode x)

/-- `ISCE.read`: parse the XML metadata, write the absolute deltas and
the corner coordinates into the container, decode the interleaved
dual-band displacement keeping the second band (recoding zeros to NaN,
then scaling), store it, then locate and decode the LOS file into
`phi` (first band) and `theta` (second band plus 90 degrees).  The
second component is the container as mutated so far (the source writes
into `self.container` step by step). -/
def ISCE.read (fs : FS) (path : String) (c0 : Container) :
    (Except PyErr Container) × Container :=
  match ISCE.getDisplacementFile fs path with
  | .error e => (.error e, c0)
  | .ok df =>
    match isceXmlMeta fs df with
    | none => (.error (.ioError "No such file or directory"), c0)
    | some m =>
      let c1 := { c0 with dLat := some |m.latDelta|, dLon := some |m.lonDelta| }
      let nlon := m.lonSize
      let nlat := m.latSize
      let c2 := { c1 with llLat := some (m.latStart + (nlat : ℚ) * m.latDelta),
                          llLon := some m.lonStart }
      match lookupFile fs df with
      | none => (.error (.ioError df), c2)
      | some de =>
        match reshape2 nlat (nlon * 2) de.data with
        | none => (.error (.valueError "cannot reshape array"), c2)
        | some rows =>
          let disp := rows.map (fun r => (r.drop nlon).map isceDisplTransform)
          let c3 := { c2 with displacement := some disp }
          match ISCE.getLOSFile fs path with
          | .error e => (.error e, c3)
          | .ok lf =>
            match lookupFile fs lf with
            | none => (.error (.ioError lf), c3)
            | some le =>
              match reshape2 nlat (nlon * 2) le.data with
              | none => (.error (.valueError "cannot reshape array"), c3)
              | some lrows =>
                let c4 := { c3 with
                  phi := some (PyObj.grid (lrows.map (fun r => r.take nlon))),
                  theta := some (PyObj.grid (lrows.map (fun r => (r.drop nlon).map (F.addDeg 90)))) }
                (.ok c4, c4)

/-- `ISCE.validate`: both discovery helpers must succeed; `ImportError`
becomes `False`. -/
def ISCE.validate (fs : FS) (filename : String) (c : Container) :
    (Except PyErr Bool) × Container :=
  match
    (match ISCE.getDisplacementFile fs filename with
     | .error e => .error e
     | .ok _ =>
       match ISCE.getLOSFile fs filename with
       | .error e => .error e
       | .ok _ => .ok true : Except PyErr Bool)
  with
  | .ok b => (.ok b, c)
  | .error (.importError _) => (.ok false, c)
  | .error e => (.error e, c)

/-! ### GMTSAR reader (validate only; its read is not touched by the
claims) -/

/-- `GMTSAR._getDisplacementFile`. -/
def GMTSAR.getDisplacementFile (fs : FS) (path : String) : Except PyErr String :=
  if isfile fs path then .ok path
  else
    match globE fs path "*.grd" with
    | [] => .error (.importError "Could not find displacement file (*.grd)")
    | e :: _ => .ok e.path

/-- `GMTSAR.validate`: `True` iff the discovered displacement file ends
in `.grd`; `ImportError` becomes `False`. -/
def GMTSAR.validate (fs : FS) (filename : String) (c : Container) :
    (Except PyErr Bool) × Container :=
  match GMTSAR.getDisplacementFile fs filename with
  | .ok df => (.ok (pyLast4 df == ".grd"), c)
  | .error (.importError _) => (.ok false, c)
  | .error e => (.error e, c)

/-! ### Concrete fixtures used by the closed theorems -/

/-- Placeholder metadata for files that are not ISCE XML files. -/
def dummyMeta : IsceMeta :=
  { lonStart := 0, lonDelta := 0, latStart := 0, latDelta := 0,
    lonSize := 0, latSize := 0 }

/-- A complete Gamma parameter set with `nlines = 4`, `width = 5`,
`corner_lat = 0`, `post_lat = 1`. -/
def parC2 : List (String × PVal) :=
  [("corner_lat", .num 0), ("corner_lon", .num 0), ("nlines", .num 4),
   ("width", .num 5), ("post_lat", .num 1), ("post_lon", .num 1)]

/-- A synthetic Gamma product: parameter file, 20-float displacement,
one `*phi*` and one `*theta*` grid of 20 floats each. -/
def fsC2 : FS :=
  { files :=
    [ { path := "/g2/scene.par", params := parC2, data := [], meta := dummyMeta },
      { path := "/g2/scene.unw", params := [],
        data := List.replicate 20 (F.num 1), meta := dummyMeta },
      { path := "/g2/look.phi", params := [],
        data := List.replicate 20 (F.num 1), meta := dummyMeta },
      { path := "/g2/look.theta", params := [],
        data := List.replicate 20 (F.num 1), meta := dummyMeta } ] }

/-- The container produced by decoding `fsC2`. -/
def cG2 : Container :=
  { phi := some (.shape2 4 5), theta := some (.shape2 4 5),
    displacement := some (List.replicate 4 (List.replicate 5 (F.num (1/100)))),
    llLon := some 0, llLat := some 5, dLat := some 1, dLon := some 1 }

/-- The same synthetic Gamma product WITHOUT any `*phi*` file. -/
def fsC4 : FS :=
  { files :=
    [ { path := "/g4/scene.par", params := parC2, data := [], meta := dummyMeta },
      { path := "/g4/scene.unw", params := [],
        data := List.replicate 20 (F.num 1), meta := dummyMeta },
      { path := "/g4/look.theta", params := [],
        data := List.replicate 20 (F.num 1), meta := dummyMeta } ] }

/-- ISCE metadata with one-pixel grids and a NEGATIVE latitude delta. -/
def mC6 : IsceMeta :=
  { lonStart := 20, lonDelta := 1/4, latStart := 10, latDelta := -(1/2),
    lonSize := 1, latSize := 1 }

/-- A complete one-pixel ISCE product (displacement, XML, LOS). -/
def fsC6 : FS :=
  { files :=
    [ { path := "/e/a.unw.geo", params := [], data := [F.num 1, F.num 2],
        meta := dummyMeta },
      { path := "/e/a.unw.geo.xml", params := [], data := [], meta := mC6 },
      { path := "/e/b.rdr.geo", params := [], data := [F.num 3, F.num 4],
        meta := dummyMeta } ] }

/-- The container produced by decoding `fsC6`. -/
def cC6v : Container :=
  { phi := some (.grid [[F.num 3]]), theta := some (.grid [[F.num 94]]),
    displacement := some [[F.num (1/50)]],
    llLon := some 20, llLat := some (19/2), dLat := some (1/2), dLon := some (1/4) }

/-- A one-pixel ISCE product with displacement and XML but no
`*.rdr.geo` LOS file. -/
def fsC5 : FS :=
  { files :=
    [ { path := "/d/a.unw.geo", params := [], data := [F.num 1, F.num 2],
        meta := dummyMeta },
      { path := "/d/a.unw.geo.xml", params := [], data := [], meta := mC6 } ] }

/-- The container state at the moment `ISCE.read` fails on `fsC5`: the
geolocation fields and the displacement are already stored. -/
def cC5v : Container :=
  { phi := none, theta := none,
    displacement := some [[F.num (1/50)]],
    llLon := some 20, llLat := some (19/2), dLat := some (1/2), dLon := some (1/4) }

/-! ## Shared helper lemmas -/

deriving instance DecidableEq for Except

theorem chunkRows_length (n w : ℕ) : ∀ xs, (chunkRows n w xs).length = n := by
  induction n with
  | zero => intro xs; rfl
  | succ n ih => intro xs; simp [chunkRows, ih]

theorem chunkRows_row_length {n w : ℕ} :
    ∀ {xs : List F}, xs.length = n * w → ∀ r ∈ chunkRows n w xs, r.length = w := by
  induction n with
  | zero => intro xs _ r hr; simp [chunkRows] at hr
  | succ n ih =>
    intro xs h r hr
    simp only [chunkRows, List.mem_cons] at hr
    rcases hr with rfl | hr
    · have hw : w ≤ xs.length := by rw [h, Nat.succ_mul]; omega
      rw [List.length_take]; omega
    · exact ih (by rw [List.length_drop, h, Nat.succ_mul]; omega) r hr

theorem chunkRows_mem_mem {n w : ℕ} :
    ∀ {xs : List F} {r : List F}, r ∈ chunkRows n w xs → ∀ {x : F}, x ∈ r → x ∈ xs := by
  induction n with
  | zero => intro xs r hr; simp [chunkRows] at hr
  | succ n ih =>
    intro xs r hr x hx
    simp only [chunkRows, List.mem_cons] at hr
    rcases hr with rfl | hr
    · exact List.take_subset _ _ hx
    · exact List.drop_subset _ _ (ih hr hx)

theorem chunkRows_getElem {w : ℕ} :
    ∀ {n : ℕ} (xs : List F) (i : ℕ), i < n →
      (chunkRows n w xs)[i]? = some ((xs.drop (i * w)).take w) := by
  intro n
  induction n with
  | zero => intro xs i hi; omega
  | succ n ih =>
    intro xs i hi
    match i with
    | 0 => simp [chunkRows]
    | i + 1 =>
      have h2 := ih (xs.drop w) i (by omega)
      simp only [chunkRows, List.getElem?_cons_succ, h2, List.drop_drop]
      have h3 : w + i * w = (i + 1) * w := by ring
      rw [h3]

theorem gammaRecode_of_zeroEq {y : F} (h : F.ieeeEq y F.negZero = true) :
    gammaRecode y = F.nan := by
  simp [gammaRecode, h]

theorem gammaRecode_of_ne {y : F} (h : F.ieeeEq y F.negZero = false) :
    gammaRecode y = y := by
  simp [gammaRecode, h]

theorem isceDisplTransform_never_zero (x : F) :
    F.ieeeEq (isceDisplTransform x) (F.num 0) = false := by
  rcases x with q | _ | _
  · by_cases hq : q = 0
    · subst hq; rfl
    · have hq2 : ¬(q / 100 = 0) := by
        intro hc
        rcases div_eq_zero_iff.mp hc with h | h
        · exact hq h
        · norm_num at h
      simp [isceDisplTransform, isceRecode, F.ieeeEq, F.cmToM, hq, hq2]
  · rfl
  · rfl

/-! ## Claim theorems -/

/-- C1: With `nlines = 4`, `width = 5`, a displacement file of exactly 20
floats is decoded without any fill being appended, into a 4-by-5 matrix
whose cells are the recoded input values (so no padding sentinel appears;
in particular no NaN at all when the input holds no NaN and no zero);
the same file truncated to 18 floats is decoded into a 4-by-5 matrix
whose last two cells are the NaN sentinel. -/
theorem gamma_roundtrip_pad :
    (∀ data : List F, data.length = 20 →
      gammaFill 5 data.length = none ∧
      ∃ g, gammaDecodeDispl 4 5 data = some g ∧ g.length = 4 ∧
        (∀ r ∈ g, r.length = 5) ∧
        ((∀ x ∈ data, x ≠ F.nan ∧ F.ieeeEq x F.negZero = false) →
          ∀ r ∈ g, ∀ y ∈ r, y ≠ F.nan)) ∧
    (∀ data : List F, data.length = 18 →
      ∃ g, gammaDecodeDispl 4 5 data = some g ∧ g.length = 4 ∧
        (∀ r ∈ g, r.length = 5) ∧
        cellOf g 3 3 = some F.nan ∧ cellOf g 3 4 = some F.nan) := by
  constructor
  · intro data h20
    have hfill : gammaFill 5 data.length = none := by rw [h20]; rfl
    refine ⟨hfill, (chunkRows 4 5 data).map (List.map gammaRecode), ?_, ?_, ?_, ?_⟩
    · unfold gammaDecodeDispl gammaPadded
      rw [hfill]
      unfold reshape2
      rw [if_pos (by rw [h20])]
    · simp [chunkRows_length]
    · intro r hr
      simp only [List.mem_map] at hr
      obtain ⟨a, ha, rfl⟩ := hr
      rw [List.length_map]
      exact chunkRows_row_length (by rw [h20]) a ha
    · intro hvals r hr y hy
      simp only [List.mem_map] at hr
      obtain ⟨a, ha, rfl⟩ := hr
      simp only [List.mem_map] at hy
      obtain ⟨x, hx, rfl⟩ := hy
      obtain ⟨hnan, hz⟩ := hvals x (chunkRows_mem_mem ha hx)
      rw [gammaRecode_of_ne hz]
      exact hnan
  · intro data h18
    have hfill : gammaFill 5 data.length = some 2 := by rw [h18]; rfl
    have hpad : gammaPadded 5 data = data ++ List.replicate 2 F.nan := by
      unfold gammaPadded; rw [hfill]
    have hlen : (data ++ List.replicate 2 F.nan).length = 20 := by
      simp [h18]
    refine ⟨(chunkRows 4 5 (data ++ List.replicate 2 F.nan)).map (List.map gammaRecode),
      ?_, ?_, ?_, ?_, ?_⟩
    · unfold gammaDecodeDispl
      rw [hpad]
      unfold reshape2
      rw [if_pos (by rw [hlen])]
    · simp [chunkRows_length]
    · intro r hr
      simp only [List.mem_map] at hr
      obtain ⟨a, ha, rfl⟩ := hr
      rw [List.length_map]
      exact chunkRows_row_length (by rw [hlen]) a ha
    · unfold cellOf
      rw [List.getElem?_map, chunkRows_getElem _ 3 (by omega : 3 < 4)]
      simp only [Option.map_some', Option.some_bind]
      rw [List.getElem?_map, List.getElem?_take, if_pos (show (3:ℕ) < 5 by omega)]
      rw [List.getElem?_drop,
        List.getElem?_append_right (by omega)]
      rw [h18]
      rfl
    · unfold cellOf
      rw [List.getElem?_map, chunkRows_getElem _ 3 (by omega : 3 < 4)]
      simp only [Option.map_some', Option.some_bind]
      rw [List.getElem?_map, List.getElem?_take, if_pos (show (4:ℕ) < 5 by omega)]
      rw [List.getElem?_drop,
        List.getElem?_append_right (by omega)]
      rw [h18]
      rfl

/-- C1 witness: the two parts of `gamma_roundtrip_pad` instantiated on
concrete 20- and 18-float files. -/
theorem gamma_roundtrip_pad_witness :
    (∃ g, gammaDecodeDispl 4 5 (List.replicate 20 (F.num 1)) = some g ∧
      g.length = 4 ∧ (∀ r ∈ g, r.length = 5) ∧ ∀ r ∈ g, ∀ y ∈ r, y ≠ F.nan) ∧
    (∃ g, gammaDecodeDispl 4 5 (List.replicate 18 (F.num 1)) = some g ∧
      g.length = 4 ∧ (∀ r ∈ g, r.length = 5) ∧
      cellOf g 3 3 = some F.nan ∧ cellOf g 3 4 = some F.nan) := by
  constructor
  · obtain ⟨-, g, hg, h4, h5, hn⟩ :=
      gamma_roundtrip_pad.1 (List.replicate 20 (F.num 1)) (by decide)
    exact ⟨g, hg, h4, h5, hn (by decide)⟩
  · exact gamma_roundtrip_pad.2 (List.replicate 18 (F.num 1)) (by decide)

/-- C2: Evaluating `Gamma.read` on a complete synthetic product whose
parameter file holds `nlines = 4`, `width = 5`, `corner_lat = 0`,
`post_lat = 1` shows that the container's `llLat` is
`corner_lat + post_lat * width = 5`, NOT
`corner_lat + post_lat * nlines = 4`: the source multiplies `post_lat`
by the variable `nrows`, which holds `int(par['width'])`. -/
theorem gamma_llLat_uses_width :
    Gamma.read fsC2 "/g2/scene.unw" emptyContainer = (.ok cG2, cG2, []) ∧
    zParam parC2 "nlines" = some 4 ∧
    zParam parC2 "width" = some 5 ∧
    qParam parC2 "corner_lat" = some 0 ∧
    qParam parC2 "post_lat" = some 1 ∧
    cG2.llLat = some ((0 : ℚ) + 1 * 5) ∧
    cG2.llLat ≠ some ((0 : ℚ) + 1 * 4) := by with_unfolding_all decide

/-- C3 counterexample: an input element equal to ordinary positive zero
is NOT left untouched by the Gamma decode: it is recoded to the NaN
sentinel, because the numpy mask `displ == -0.` also matches `+0.0`. -/
theorem gamma_poszero_recoded_cex :
    gammaDecodeDispl 1 2 [F.num 0, F.num 3] = some [[F.nan, F.num 3]] ∧
    F.nan ≠ F.num 0 := by decide

/-- C3 amended: after a Gamma decode every input element that
IEEE-compares equal to `-0.0` is recoded to the NaN sentinel — and
since `-0.0 == +0.0` under IEEE comparison this includes ordinary
positive zero — while every element not comparing equal to zero is left
untouched; every cell of the decoded grid is the recoding of an element
of the padded input. -/
theorem gamma_zero_recode_amended :
    (F.ieeeEq (F.num 0) F.negZero = true) ∧
    (∀ y : F, F.ieeeEq y F.negZero = true → gammaRecode y = F.nan) ∧
    (∀ y : F, F.ieeeEq y F.negZero = false → gammaRecode y = y) ∧
    (∀ (nl nr : ℕ) (data : List F) (g : Grid),
      gammaDecodeDispl nl nr data = some g →
      ∀ r ∈ g, ∀ x ∈ r, ∃ y ∈ gammaPadded nr data, x = gammaRecode y) := by
  refine ⟨rfl, ?_, ?_, ?_⟩
  · intro y h; exact gammaRecode_of_zeroEq h
  · intro y h; exact gammaRecode_of_ne h
  · intro nl nr data g hg r hr x hx
    unfold gammaDecodeDispl reshape2 at hg
    by_cases hlen : (gammaPadded nr data).length = nl * nr
    · rw [if_pos hlen] at hg
      obtain rfl : (chunkRows nl nr (gammaPadded nr data)).map (List.map gammaRecode) = g := by
        simpa using hg
      simp only [List.mem_map] at hr
      obtain ⟨a, ha, rfl⟩ := hr
      simp only [List.mem_map] at hx
      obtain ⟨y, hy, rfl⟩ := hx
      exact ⟨y, chunkRows_mem_mem ha hy, rfl⟩
    · rw [if_neg hlen] at hg
      exact absurd hg (by simp)

/-- C3 witness: the amended statement instantiated at `-0.0`, `+0.0`
and a nonzero value, and at a concrete decode. -/
theorem gamma_zero_recode_amended_witness :
    gammaRecode F.negZero = F.nan ∧
    gammaRecode (F.num 0) = F.nan ∧
    gammaRecode (F.num 3) = F.num 3 ∧
    (∀ r ∈ [[F.nan, F.num 3]], ∀ x ∈ r,
      ∃ y ∈ gammaPadded 2 [F.num 0, F.num 3], x = gammaRecode y) := by
  refine ⟨gamma_zero_recode_amended.2.1 F.negZero (by decide),
    gamma_zero_recode_amended.2.1 (F.num 0) (by decide),
    gamma_zero_recode_amended.2.2.1 (F.num 3) (by decide),
    gamma_zero_recode_amended.2.2.2 1 2 [F.num 0, F.num 3] [[F.nan, F.num 3]] (by decide)⟩

/-- C4: On a synthetic Gamma product whose directory holds no `*phi*`
file, `_getAngle` emits the diagnostic and returns the Python float
`0.`, but `Gamma.read` then fails hard with an `AttributeError` at
`phi.reshape(nlines, nrows)` (a Python float has no `reshape`): decode
does NOT complete. -/
theorem gamma_missing_phi_fails :
    Gamma.getAngle fsC4 "/g4/scene.unw" "*phi*" =
      (.pyScalar, ["Could not find *phi* file, defaulting to 0."]) ∧
    Gamma.read fsC4 "/g4/scene.unw" emptyContainer =
      (.error (.attributeError "float object has no attribute reshape"),
       emptyContainer,
       ["Could not find *phi* file, defaulting to 0."]) := by with_unfolding_all decide

/-- C5 counterexample: on a directory holding a displacement binary and
its XML but no `*.rdr.geo` file, `ISCE.read` raises the `ImportError`
naming the pattern, but at that moment the displacement array HAS been
created and stored in the container. -/
theorem isce_missing_los_cex :
    ISCE.read fsC5 "/d" emptyContainer =
      (.error (.importError "Could not find LOS file (.rdr.geo)"), cC5v) ∧
    cC5v.displacement ≠ none := by with_unfolding_all decide

/-- C5 amended: when the displacement file and its XML are found and
decoded but no `*.rdr.geo` file exists, `ISCE.read` fails with the
`ImportError` naming `(.rdr.geo)`, with the decoded displacement
already stored in the container at the moment of failure. -/
theorem isce_missing_los_partial (fs : FS) (path : String) (c : Container)
    (df : String) (m : IsceMeta) (de : FileEntry) (rows : Grid) (e : PyErr)
    (h1 : ISCE.getDisplacementFile fs path = .ok df)
    (h2 : isceXmlMeta fs df = some m)
    (h3 : lookupFile fs df = some de)
    (h4 : reshape2 m.latSize (m.lonSize * 2) de.data = some rows)
    (h5 : ISCE.getLOSFile fs path = .error e) :
    ∃ cc, ISCE.read fs path c =
      (.error (.importError "Could not find LOS file (.rdr.geo)"), cc) ∧
      cc.displacement =
        some (rows.map (fun r => (r.drop m.lonSize).map isceDisplTransform)) := by
  have hmsg : e = .importError "Could not find LOS file (.rdr.geo)" := by
    unfold ISCE.getLOSFile at h5
    rcases hg : globE fs (if isdir fs path then path else dirname path) "*.rdr.geo"
      with _ | ⟨a, rest⟩
    · rw [hg] at h5
      exact (Except.error.inj h5).symm
    · rw [hg] at h5
      exact absurd h5 (by simp)
  subst hmsg
  refine ⟨{ phi := c.phi, theta := c.theta,
            displacement :=
              some (rows.map (fun r => (r.drop m.lonSize).map isceDisplTransform)),
            llLon := some m.lonStart,
            llLat := some (m.latStart + (m.latSize : ℚ) * m.latDelta),
            dLat := some |m.latDelta|, dLon := some |m.lonDelta| }, ?_, rfl⟩
  simp only [ISCE.read, h1, h2, h3, h4, h5]

/-- C5 witness: `isce_missing_los_partial` instantiated on the concrete
one-pixel fixture. -/
theorem isce_missing_los_partial_witness :
    ∃ cc, ISCE.read fsC5 "/d" emptyContainer =
      (.error (.importError "Could not find LOS file (.rdr.geo)"), cc) ∧
      cc.displacement =
        some ([[F.num 1, F.num 2]].map
          (fun r => (r.drop mC6.lonSize).map isceDisplTransform)) :=
  isce_missing_los_partial fsC5 "/d" emptyContainer "/d/a.unw.geo" mC6
    { path := "/d/a.unw.geo", params := [], data := [F.num 1, F.num 2],
      meta := dummyMeta }
    [[F.num 1, F.num 2]] (.importError "Could not find LOS file (.rdr.geo)")
    (by with_unfolding_all decide) (by with_unfolding_all decide)
    (by with_unfolding_all decide) (by with_unfolding_all decide)
    (by with_unfolding_all decide)

/-- C6 counterexample: a successful ISCE decode whose XML latitude
delta is `-(1/2)` produces a container `dLat` of `+(1/2)`: the sign of
the metadata delta is NOT preserved (the source takes `num.abs`). -/
theorem isce_delta_sign_cex :
    ISCE.read fsC6 "/e" emptyContainer = (.ok cC6v, cC6v) ∧
    isceXmlMeta fsC6 "/e/a.unw.geo" = some mC6 ∧
    mC6.latDelta = -(1/2) ∧
    cC6v.dLat = some (1/2) ∧
    some ((1 : ℚ)/2) ≠ some (-(1 : ℚ)/2) := by with_unfolding_all decide

/-- C6 amended: for every successful ISCE decode, the container's
`dLat` and `dLon` equal the ABSOLUTE VALUES of the delta values read
from the XML metadata (hence are always non-negative; the metadata
sign is discarded). -/
theorem isce_delta_abs (fs : FS) (path : String) (c cc : Container)
    (h : (ISCE.read fs path c).1 = .ok cc) :
    ∃ df m, ISCE.getDisplacementFile fs path = .ok df ∧
      isceXmlMeta fs df = some m ∧
      cc.dLat = some |m.latDelta| ∧ cc.dLon = some |m.lonDelta| ∧
      (0 : ℚ) ≤ |m.latDelta| ∧ (0 : ℚ) ≤ |m.lonDelta| := by
  rcases hdf : ISCE.getDisplacementFile fs path with e | df
  · simp only [ISCE.read, hdf] at h
    exact absurd h (by simp)
  rcases hm : isceXmlMeta fs df with _ | m
  · simp only [ISCE.read, hdf, hm] at h
    exact absurd h (by simp)
  rcases hde : lookupFile fs df with _ | de
  · simp only [ISCE.read, hdf, hm, hde] at h
    exact absurd h (by simp)
  rcases hrows : reshape2 m.latSize (m.lonSize * 2) de.data with _ | rows
  · simp only [ISCE.read, hdf, hm, hde, hrows] at h
    exact absurd h (by simp)
  rcases hlos : ISCE.getLOSFile fs path with e2 | lf
  · simp only [ISCE.read, hdf, hm, hde, hrows, hlos] at h
    exact absurd h (by simp)
  rcases hle : lookupFile fs lf with _ | le
  · simp only [ISCE.read, hdf, hm, hde, hrows, hlos, hle] at h
    exact absurd h (by simp)
  rcases hlrows : reshape2 m.latSize (m.lonSize * 2) le.data with _ | lrows
  · simp only [ISCE.read, hdf, hm, hde, hrows, hlos, hle, hlrows] at h
    exact absurd h (by simp)
  simp only [ISCE.read, hdf, hm, hde, hrows, hlos, hle, hlrows] at h
  have hcc := Except.ok.inj h
  subst hcc
  exact ⟨df, m, rfl, hm, rfl, rfl, abs_nonneg _, abs_nonneg _⟩

/-- C6 witness: `isce_delta_abs` instantiated on the concrete fixture
with a negative metadata latitude delta. -/
theorem isce_delta_abs_witness :
    ∃ df m, ISCE.getDisplacementFile fsC6 "/e" = .ok df ∧
      isceXmlMeta fsC6 df = some m ∧
      cC6v.dLat = some |m.latDelta| ∧ cC6v.dLon = some |m.lonDelta| ∧
      (0 : ℚ) ≤ |m.latDelta| ∧ (0 : ℚ) ≤ |m.lonDelta| :=
  isce_delta_abs fsC6 "/e" emptyContainer cC6v (by with_unfolding_all decide)

/-- C10: every ISCE displacement element that IEEE-compares equal to
`0.0` (including a genuine zero-displacement measurement) is rewritten
to the NaN sentinel by the per-element transform (recode-then-scale),
and consequently no cell of the displacement grid of any successful
ISCE decode IEEE-compares equal to zero. -/
theorem isce_zero_to_nan :
    (∀ x : F, F.ieeeEq x (F.num 0) = true → isceDisplTransform x = F.nan) ∧
    (∀ (fs : FS) (path : String) (c cc : Container),
      (ISCE.read fs path c).1 = .ok cc →
      ∀ g, cc.displacement = some g → ∀ r ∈ g, ∀ y ∈ r,
        F.ieeeEq y (F.num 0) = false) := by
  constructor
  · intro x hx
    unfold isceDisplTransform isceRecode
    rw [hx]
    rfl
  · intro fs path c cc h g hg r hr y hy
    rcases hdf : ISCE.getDisplacementFile fs path with e | df
    · simp only [ISCE.read, hdf] at h
      exact absurd h (by simp)
    rcases hm : isceXmlMeta fs df with _ | m
    · simp only [ISCE.read, hdf, hm] at h
      exact absurd h (by simp)
    rcases hde : lookupFile fs df with _ | de
    · simp only [ISCE.read, hdf, hm, hde] at h
      exact absurd h (by simp)
    rcases hrows : reshape2 m.latSize (m.lonSize * 2) de.data with _ | rows
    · simp only [ISCE.read, hdf, hm, hde, hrows] at h
      exact absurd h (by simp)
    rcases hlos : ISCE.getLOSFile fs path with e2 | lf
    · simp only [ISCE.read, hdf, hm, hde, hrows, hlos] at h
      exact absurd h (by simp)
    rcases hle : lookupFile fs lf with _ | le
    · simp only [ISCE.read, hdf, hm, hde, hrows, hlos, hle] at h
      exact absurd h (by simp)
    rcases hlrows : reshape2 m.latSize (m.lonSize * 2) le.data with _ | lrows
    · simp only [ISCE.read, hdf, hm, hde, hrows, hlos, hle, hlrows] at h
      exact absurd h (by simp)
    simp only [ISCE.read, hdf, hm, hde, hrows, hlos, hle, hlrows] at h
    have hcc := Except.ok.inj h
    subst hcc
    simp only [Option.some.injEq] at hg
    subst hg
    simp only [List.mem_map] at hr
    obtain ⟨row0, hrow0, rfl⟩ := hr
    simp only [List.mem_map] at hy
    obtain ⟨z, hz, rfl⟩ := hy
    exact isceDisplTransform_never_zero z

/-- C10 witness: the transform at concrete zero inputs, and the cell
property on the grid of the concrete successful decode. -/
theorem isce_zero_to_nan_witness :
    isceDisplTransform (F.num 0) = F.nan ∧
    isceDisplTransform F.negZero = F.nan ∧
    (∀ r ∈ [[F.num (1/50)]], ∀ y ∈ r, F.ieeeEq y (F.num 0) = false) := by
  refine ⟨isce_zero_to_nan.1 (F.num 0) (by with_unfolding_all decide),
    isce_zero_to_nan.1 F.negZero (by with_unfolding_all decide), ?_⟩
  exact isce_zero_to_nan.2 fsC6 "/e" emptyContainer cC6v
    (by with_unfolding_all decide) [[F.num (1/50)]] (by with_unfolding_all decide)

/-- The quotient of a scaled spacing by `110e3` vanishes only for a
degenerate spacing. -/
theorem spacing_div_ne_zero {a b s : ℚ} (h : a ≠ b) (hs : s ≠ 0) :
    (a * s - b * s) / 110000 ≠ 0 := by
  intro hc
  rcases div_eq_zero_iff.mp hc with h0 | h0
  · exact h (mul_right_cancel₀ hs (sub_eq_zero.mp h0))
  · norm_num at h0

/-- C7: when the UTM conversion is out of range (`toLL` always raises),
`Matlab.read` does not fail: it returns a container with
`llLat = llLon = 0`, with `dLat`/`dLon` derived from the (possibly
rescaled) raw coordinate spacing over `110e3` — non-zero whenever the
raw spacings are non-degenerate — and logs the diagnostic. -/
theorem matlab_degraded (toLL : ℚ → ℚ → Option (ℚ × ℚ))
    (x0 x1 : ℚ) (xs2 : List ℚ) (y0 y1 : ℚ) (ys2 : List ℚ) (ig : Grid)
    (c : Container)
    (hc : ∀ a b, toLL a b = none) (hx : x1 ≠ x0) (hy : y1 ≠ y0) :
    ∃ cc s, (s = (1 : ℚ) ∨ s = 1000) ∧
      Matlab.read toLL (x0 :: x1 :: xs2) (y0 :: y1 :: ys2) ig c =
        .ok (cc, [matlabWarnMsg]) ∧
      cc.llLat = some 0 ∧ cc.llLon = some 0 ∧
      cc.dLat = some ((x1 * s - x0 * s) / 110000) ∧
      cc.dLon = some ((y1 * s - y0 * s) / 110000) ∧
      cc.dLat ≠ some 0 ∧ cc.dLon ≠ some 0 ∧
      cc.displacement = some ig := by
  by_cases hcond : npMinQ x0 (x1 :: xs2) < 10000 ∨ npMinQ y0 (y1 :: ys2) < 10000
  · refine ⟨{ phi := c.phi, theta := c.theta, displacement := some ig,
              llLon := some 0, llLat := some 0,
              dLat := some ((x1 * 1000 - x0 * 1000) / 110000),
              dLon := some ((y1 * 1000 - y0 * 1000) / 110000) },
      1000, Or.inr rfl, ?_, rfl, rfl, rfl, rfl, ?_, ?_, rfl⟩
    · simp only [Matlab.read, if_pos hcond, hc, List.map_cons, matlabExceptBranch]
    · intro hzero
      exact spacing_div_ne_zero hx (by norm_num) (Option.some.inj hzero)
    · intro hzero
      exact spacing_div_ne_zero hy (by norm_num) (Option.some.inj hzero)
  · refine ⟨{ phi := c.phi, theta := c.theta, displacement := some ig,
              llLon := some 0, llLat := some 0,
              dLat := some ((x1 * 1 - x0 * 1) / 110000),
              dLon := some ((y1 * 1 - y0 * 1) / 110000) },
      1, Or.inl rfl, ?_, rfl, rfl, rfl, rfl, ?_, ?_, rfl⟩
    · simp only [Matlab.read, if_neg hcond, hc, List.map_cons, matlabExceptBranch]
    · intro hzero
      exact spacing_div_ne_zero hx (by norm_num) (Option.some.inj hzero)
    · intro hzero
      exact spacing_div_ne_zero hy (by norm_num) (Option.some.inj hzero)

/-- C7 witness: `matlab_degraded` at an always-out-of-range conversion
and concrete coordinate vectors. -/
theorem matlab_degraded_witness :
    ∃ cc s, (s = (1 : ℚ) ∨ s = 1000) ∧
      Matlab.read (fun _ _ => none) (0 :: 1 :: []) (0 :: 2 :: []) [[F.num 7]]
          emptyContainer =
        .ok (cc, [matlabWarnMsg]) ∧
      cc.llLat = some 0 ∧ cc.llLon = some 0 ∧
      cc.dLat = some (((1 : ℚ) * s - 0 * s) / 110000) ∧
      cc.dLon = some (((2 : ℚ) * s - 0 * s) / 110000) ∧
      cc.dLat ≠ some 0 ∧ cc.dLon ≠ some 0 ∧
      cc.displacement = some [[F.num 7]] :=
  matlab_degraded (fun _ _ => none) 0 1 [] 0 2 [] [[F.num 7]] emptyContainer
    (fun _ _ => rfl) (by norm_num) (by norm_num)

/-- C8 counterexample: a parameter set missing (among others) both
`corner_lat` and `corner_lon` produces an error that names only
`corner_lat`, the first missing key: the message does not contain
`corner_lon`. -/
theorem gamma_required_first_cex :
    checkRequired [] = .error (.importError (reqMissingMsg "corner_lat")) ∧
    (lookupParam ([] : List (String × PVal)) "corner_lon").isNone = true ∧
    strContains (reqMissingMsg "corner_lat") "corner_lon" = false := by decide

/-- C8 amended: a Gamma parameter file missing required keys fails with
an `ImportError` naming exactly the FIRST missing key in the fixed
required order (`corner_lat, corner_lon, nlines, width, post_lat,
post_lon`): the message contains that key and no other required key. -/
theorem gamma_required_first_only (ps : List (String × PVal)) (r : String)
    (h : firstMissing ps = some r) :
    checkRequired ps = .error (.importError (reqMissingMsg r)) ∧
    strContains (reqMissingMsg r) r = true ∧
    ∀ k ∈ requiredParams, k ≠ r → strContains (reqMissingMsg r) k = false := by
  have hr : r ∈ requiredParams := List.mem_of_find?_eq_some h
  refine ⟨by unfold checkRequired; rw [h], ?_, ?_⟩
  · simp only [requiredParams, List.mem_cons, List.not_mem_nil, or_false] at hr
    rcases hr with rfl | rfl | rfl | rfl | rfl | rfl <;> decide
  · simp only [requiredParams, List.mem_cons, List.not_mem_nil, or_false] at hr
    rcases hr with rfl | rfl | rfl | rfl | rfl | rfl <;> decide

/-- C8 witness: `gamma_required_first_only` on a parameter set holding
only `width`. -/
theorem gamma_required_first_only_witness :
    checkRequired [("width", PVal.num 1)] =
      .error (.importError (reqMissingMsg "corner_lat")) ∧
    strContains (reqMissingMsg "corner_lat") "corner_lat" = true ∧
    ∀ k ∈ requiredParams, k ≠ "corner_lat" →
      strContains (reqMissingMsg "corner_lat") k = false :=
  gamma_required_first_only [("width", PVal.num 1)] "corner_lat" (by decide)

/-- The required-keys check either succeeds or raises `ImportError`. -/
theorem checkRequired_cases (ps : List (String × PVal)) :
    checkRequired ps = .ok () ∨
    ∃ m, checkRequired ps = .error (.importError m) := by
  unfold checkRequired
  rcases firstMissing ps with _ | r
  · left; rfl
  · right; exact ⟨_, rfl⟩

/-- `Gamma._getParameterFile`'s loop either returns a file or raises
`ImportError`; no other exception escapes it. -/
theorem gamma_findPar_cases (l : List FileEntry) :
    (∃ e2, Gamma.findPar l = .ok e2) ∨
    ∃ m, Gamma.findPar l = .error (.importError m) := by
  induction l with
  | nil => right; exact ⟨_, rfl⟩
  | cons e rest ih =>
    rcases checkRequired_cases e.params with h | ⟨m, h⟩
    · left
      exact ⟨e, by simp only [Gamma.findPar, h]⟩
    · rcases ih with ⟨e2, h2⟩ | ⟨m2, h2⟩
      · left
        exact ⟨e2, by simp only [Gamma.findPar, h, h2]⟩
      · right
        exact ⟨m2, by simp only [Gamma.findPar, h, h2]⟩

/-- `ISCE._getDisplacementFile`'s candidate step raises only
`ImportError`. -/
theorem isce_dispCandidate_cases (fs : FS) (path : String) :
    (∃ p, ISCE.getDispCandidate fs path = .ok p) ∨
    ∃ m, ISCE.getDispCandidate fs path = .error (.importError m) := by
  unfold ISCE.getDispCandidate
  by_cases hf : isfile fs path
  · left; exact ⟨path, by rw [if_pos hf]⟩
  · rw [if_neg hf]
    rcases globE fs path "*.unw.geo" with _ | ⟨a, rest⟩
    · right; exact ⟨_, rfl⟩
    · left; exact ⟨_, rfl⟩

/-- `ISCE._getDisplacementFile` raises only `ImportError`. -/
theorem isce_getDisplacementFile_cases (fs : FS) (path : String) :
    (∃ p, ISCE.getDisplacementFile fs path = .ok p) ∨
    ∃ m, ISCE.getDisplacementFile fs path = .error (.importError m) := by
  rcases isce_dispCandidate_cases fs path with ⟨p, h⟩ | ⟨m, h⟩
  · by_cases hx : isfile fs (p ++ ".xml")
    · left
      exact ⟨p, by unfold ISCE.getDisplacementFile; simp only [h]; rw [if_pos hx]⟩
    · right
      exact ⟨_, by unfold ISCE.getDisplacementFile; simp only [h]; rw [if_neg hx]⟩
  · right
    exact ⟨m, by unfold ISCE.getDisplacementFile; simp only [h]⟩

/-- `ISCE._getLOSFile` raises only `ImportError`. -/
theorem isce_getLOSFile_cases (fs : FS) (path : String) :
    (∃ p, ISCE.getLOSFile fs path = .ok p) ∨
    ∃ m, ISCE.getLOSFile fs path = .error (.importError m) := by
  unfold ISCE.getLOSFile
  rcases globE fs (if isdir fs path then path else dirname path) "*.rdr.geo"
    with _ | ⟨a, rest⟩
  · right; exact ⟨_, rfl⟩
  · left; exact ⟨_, rfl⟩

/-- `GMTSAR._getDisplacementFile` raises only `ImportError`. -/
theorem gmtsar_getDisplacementFile_cases (fs : FS) (path : String) :
    (∃ p, GMTSAR.getDisplacementFile fs path = .ok p) ∨
    ∃ m, GMTSAR.getDisplacementFile fs path = .error (.importError m) := by
  unfold GMTSAR.getDisplacementFile
  by_cases hf : isfile fs path
  · left; exact ⟨path, by rw [if_pos hf]⟩
  · rw [if_neg hf]
    rcases globE fs path "*.grd" with _ | ⟨a, rest⟩
    · right; exact ⟨_, rfl⟩
    · left; exact ⟨_, rfl⟩

/-- C9: for all four readers and every filesystem and input path,
`validate` returns a boolean — it never lets an exception escape (the
`try` blocks catch the only exception their helpers raise) — and
leaves the reader's container exactly as it was (and, the embedding
being a pure function of the filesystem, touches no file). -/
theorem probe_total_frame (fs : FS) (c : Container) (f : String) :
    (∃ b, Matlab.validate f c = (.ok b, c)) ∧
    (∃ b, Gamma.validate fs f c = (.ok b, c)) ∧
    (∃ b, ISCE.validate fs f c = (.ok b, c)) ∧
    (∃ b, GMTSAR.validate fs f c = (.ok b, c)) := by
  refine ⟨⟨_, rfl⟩, ?_, ?_, ?_⟩
  · unfold Gamma.validate Gamma.getParameterFile
    rcases gamma_findPar_cases (globE fs (dirname f) "*par") with ⟨pf, h⟩ | ⟨m, h⟩
    · rcases checkRequired_cases pf.params with h2 | ⟨m2, h2⟩
      · exact ⟨true, by simp only [h, h2]⟩
      · exact ⟨false, by simp only [h, h2]⟩
    · exact ⟨false, by simp only [h]⟩
  · unfold ISCE.validate
    rcases isce_getDisplacementFile_cases fs f with ⟨p, h⟩ | ⟨m, h⟩
    · rcases isce_getLOSFile_cases fs f with ⟨p2, h2⟩ | ⟨m2, h2⟩
      · exact ⟨true, by simp only [h, h2]⟩
      · exact ⟨false, by simp only [h, h2]⟩
    · exact ⟨false, by simp only [h]⟩
  · unfold GMTSAR.validate
    rcases gmtsar_getDisplacementFile_cases fs f with ⟨p, h⟩ | ⟨m, h⟩
    · exact ⟨(pyLast4 p == ".grd"), by simp only [h]⟩
    · exact ⟨false, by simp only [h]⟩
